import Mathlib

attribute [local semireducible] Rat.add Rat.sub Rat.mul Rat.inv

set_option maxRecDepth 100000

/-!
Verification development for the simulation core of `src/main.rs` (a 2D
action-game prototype: custom ECS with rigid-body kinematics, player control,
a pooled projectile system, a grappling-hook pendulum and a boss stub).

The embedding comes in two layers:

* an executable rational-valued model of the per-tick ECS dispatch
  (`RigidBodyPhysics`, `PlayerControl`, `ShootBullets`) used for the
  claims about cooldowns, bullet pooling and tick-by-tick simulation;
* a real-valued model of the geometric code (`DoHook`/`try_hook`,
  `player_update_swing`, `Disc::intersects`/`handle_intersection`)
  where distances are square roots and angles use arctangent.

Rust `f32`/`f64` arithmetic is modelled as exact arithmetic over `ℚ`
(respectively `ℝ`); every comparison appearing in the claims is far from the
float rounding margin, so the sign structure of the model matches the source.
-/

/-! ## The rational-valued executable layer -/

/-- A 2D vector (`Point2` / `Vector2` in the source), rational model. -/
structure QVec where
  x : ℚ
  y : ℚ
deriving DecidableEq

/-- One slot of the bullet pool: `Pos`, `Vel` and `BulletStatus`
(`alive = true` models `BulletStatus::Alive`). -/
structure QBullet where
  pos : QVec
  vel : QVec
  alive : Bool
deriving DecidableEq

/-- The `Facing` component. -/
inductive Facing
  | left
  | right
deriving DecidableEq

/-- Facing.to_f32 from the source: -1.0 for Left, 1.0 for Right. -/
def Facing.to_f32 : Facing → ℚ
  | .left => -1
  | .right => 1

/-- The game world restricted to the components the dispatched systems touch:
the single `IsPlayer` entity (with `Pos`, `Vel`, `Facing`, `IsJumping`,
`ShootCooldown`, `HasGravity`) and the bullet pool. `spawnCount` is a ghost
counter of spawn events, used to state bullet-count claims; it shadows no
source state and influences nothing. -/
structure QWorld where
  ppos : QVec
  pvel : QVec
  facing : Facing
  jumping : Bool
  cooldown : ℚ
  bullets : List QBullet
  spawnCount : ℕ
deriving DecidableEq

/-- The input snapshot fields read by the modelled systems:
`xaxis`, whether `keys` contains `JUMP`, and the `shoot` flag. -/
structure QInput where
  xaxis : ℚ
  jump : Bool
  shoot : Bool

/-- The fixed timestep 1/60 s set by the update loop. -/
def dt60 : ℚ := 1 / 60

/-- An entity carrying `Pos` and `Vel`, with or without the `HasGravity` tag
(the join iterated by `RigidBodyPhysics::run`). -/
structure QEnt where
  px : ℚ
  py : ℚ
  vx : ℚ
  vy : ℚ
  hasGravity : Bool

/-- The body of the `RigidBodyPhysics::run` loop for one joined entity:
`pos.0 += vel.0 * dt`, then `vel.0.y -= 500.0 * dt` when the entity has the
`HasGravity` tag. -/
def rigidStep (dt : ℚ) (e : QEnt) : QEnt :=
  { e with
    px := e.px + e.vx * dt
    py := e.py + e.vy * dt
    vy := if e.hasGravity then e.vy - 500 * dt else e.vy }

/-- `RigidBodyPhysics::run` over a list of joined entities. -/
def rigidPass (dt : ℚ) (es : List QEnt) : List QEnt :=
  es.map (rigidStep dt)

/-- `RigidBodyPhysics::run` on the game world: the player carries
`HasGravity`, the bullets do not. -/
def rigidBody_run (dt : ℚ) (w : QWorld) : QWorld :=
  let p := rigidStep dt ⟨w.ppos.x, w.ppos.y, w.pvel.x, w.pvel.y, true⟩
  { w with
    ppos := ⟨p.px, p.py⟩
    pvel := ⟨p.vx, p.vy⟩
    bullets := w.bullets.map (fun b =>
      let e := rigidStep dt ⟨b.pos.x, b.pos.y, b.vel.x, b.vel.y, false⟩
      { b with pos := ⟨e.px, e.py⟩, vel := ⟨e.vx, e.vy⟩ }) }

/-- The cooldown update appearing verbatim in both `PlayerControl::run` and
`ShootBullets::run`: `if cooldown > 0 { cooldown -= dt }` followed by
`if cooldown < 0 { cooldown = 0 }`. -/
def cooldownStep (c dt : ℚ) : ℚ :=
  let c1 := if 0 < c then c - dt else c
  if c1 < 0 then 0 else c1

/-- `PlayerControl::run` on the player entity: direct x movement by
`xaxis * dt * 100`, ground clamp at y = -150, jump impulse `vel.y = 300`
when `JUMP` is held and not already jumping, the cooldown decrement with
floor at 0, and the sticky facing update. -/
def playerControl_run (inp : QInput) (dt : ℚ) (w : QWorld) : QWorld :=
  let px := w.ppos.x + inp.xaxis * dt * 100
  let clamped : Bool := decide (w.ppos.y < -150)
  let py := if clamped then -150 else w.ppos.y
  let vy := if clamped then 0 else w.pvel.y
  let j := if clamped then false else w.jumping
  let vy2 := if inp.jump && !j then 300 else vy
  let j2 := if inp.jump && !j then true else j
  let c := cooldownStep w.cooldown dt
  let f := if inp.xaxis < 0 then Facing.left
           else if 0 < inp.xaxis then Facing.right else w.facing
  { w with ppos := ⟨px, py⟩, pvel := ⟨w.pvel.x, vy2⟩, jumping := j2,
           cooldown := c, facing := f }

/-- The cooldown as written back by the player loop of `ShootBullets::run`:
the decrement with floor at 0, then `if cooldown == 0 && shoot`
re-arm to `0.035` (written `35 / 1000`: exact rational arithmetic models the
`f32` constants; every comparison taken in the simulated scenarios is far from
the float rounding margin). -/
def sbCooldown (c dt : ℚ) (shoot : Bool) : ℚ :=
  let c1 := cooldownStep c dt
  if c1 = 0 ∧ shoot = true then 35 / 1000 else c1

/-- The spawn scan of `ShootBullets::run`: walk the pool in stable order and
revive the first `Dead` slot at position `p` with velocity `v`; `none` when
every slot is `Alive` (the shot is dropped). -/
def spawnBullet (p v : QVec) : List QBullet → Option (List QBullet)
  | [] => none
  | b :: t =>
    match b.alive with
    | true => (spawnBullet p v t).map (fun t2 => b :: t2)
    | false => some ({ pos := p, vel := v, alive := true } :: t)

/-- Rust `f32::abs`. -/
def fabs (q : ℚ) : ℚ := if q < 0 then -q else q

/-- The out-of-bounds check at the end of `ShootBullets::run`:
a slot whose position has `|x| > 400` or `|y| > 400` is set `Dead`. -/
def despawnStep (b : QBullet) : QBullet :=
  if 400 < fabs b.pos.x ∨ 400 < fabs b.pos.y then { b with alive := false } else b

/-- `ShootBullets::run`: the player loop decrements the cooldown (again),
records `player_cooldown`, re-arms to 0.035 on shoot; then, if `shoot` is
held and the recorded cooldown is 0, the first `Dead` slot is revived at the
player's position with velocity `(600 * facing.to_f32(), 0)`; finally the
despawn sweep runs over the whole pool. -/
def shootBullets_run (inp : QInput) (dt : ℚ) (w : QWorld) : QWorld :=
  let player_cooldown := cooldownStep w.cooldown dt
  let c2 := sbCooldown w.cooldown dt inp.shoot
  let spawned :=
    if inp.shoot = true ∧ player_cooldown = 0 then
      spawnBullet w.ppos ⟨600 * w.facing.to_f32, 0⟩ w.bullets
    else none
  let bs := spawned.getD w.bullets
  let cnt := if spawned.isSome then w.spawnCount + 1 else w.spawnCount
  { w with cooldown := c2, bullets := bs.map despawnStep, spawnCount := cnt }

/-- One fixed-timestep pass of the dispatcher in declaration order:
`RigidBodyPhysics`, `PlayerControl`, `ShootBullets`. (`DoHook` also runs,
but with no `TOOL` rising edge it changes nothing; the simulated scenarios
below never press `TOOL`, so it is omitted from this executable layer and
modelled separately on the real-valued world.) -/
def tick (inp : QInput) (w : QWorld) : QWorld :=
  shootBullets_run inp dt60 (playerControl_run inp dt60 (rigidBody_run dt60 w))

/-- Iterate `tick` with a constant input held for `n` ticks. -/
def runTicks (inp : QInput) : ℕ → QWorld → QWorld
  | 0, w => w
  | n + 1, w => runTicks inp n (tick inp w)

/-- A pool of `n` freshly created bullet slots (`BulletStatus::Dead`,
position and velocity zero), as in world setup. -/
def initBullets (n : ℕ) : List QBullet :=
  List.replicate n ⟨⟨0, 0⟩, ⟨0, 0⟩, false⟩

/-- The world of the continuous-fire scenario: player as created in
`MainState::new` except that the cooldown starts at 0 (the claim's premise),
with a pool of 28 dead slots (the claim's premise asks for at least 28). -/
def c2World : QWorld :=
  ⟨⟨0, 0⟩, ⟨0, 0⟩, .right, false, 0, initBullets 28, 0⟩

/-- Input with only `SHOOT` held. -/
def shootInput : QInput := ⟨0, false, true⟩

/-- Input with only `LEFT` held. -/
def leftInput : QInput := ⟨-1, false, false⟩

/-- Input with `LEFT` and `SHOOT` held. -/
def leftShootInput : QInput := ⟨-1, false, true⟩

/-- The world as created in `MainState::new` (cooldown 0.035), with a pool of
3 dead slots. -/
def c4World : QWorld :=
  ⟨⟨0, 0⟩, ⟨0, 0⟩, .right, false, 35 / 1000, initBullets 3, 0⟩

/-- Walk left for 241 ticks (taking the player past x = -400), then hold
`LEFT` and `SHOOT` for one more tick. -/
def c4Run : QWorld := tick leftShootInput (runTicks leftInput 241 c4World)

/-! ### Checkpoint states

Deep kernel evaluation of 60 or 242 nested ticks overflows the evaluator, so
the long simulated runs are verified in segments of at most 20 ticks against
the intermediate world states spelled out below. Each checkpoint is discharged
by `decide`, so the literals carry no trust: a wrong literal would fail. -/

/-- The continuous-fire world after 20 ticks. -/
def c2chk1 : QWorld :=
  ⟨⟨0, -475/18⟩, ⟨0, -500/3⟩, .right, false, 1/600,
  [⟨⟨190, 0⟩, ⟨600, 0⟩, true⟩,
   ⟨⟨170, -5/12⟩, ⟨600, 0⟩, true⟩,
   ⟨⟨150, -25/18⟩, ⟨600, 0⟩, true⟩,
   ⟨⟨130, -35/12⟩, ⟨600, 0⟩, true⟩,
   ⟨⟨110, -5⟩, ⟨600, 0⟩, true⟩,
   ⟨⟨90, -275/36⟩, ⟨600, 0⟩, true⟩,
   ⟨⟨70, -65/6⟩, ⟨600, 0⟩, true⟩,
   ⟨⟨50, -175/12⟩, ⟨600, 0⟩, true⟩,
   ⟨⟨30, -170/9⟩, ⟨600, 0⟩, true⟩,
   ⟨⟨10, -95/4⟩, ⟨600, 0⟩, true⟩,
   ⟨⟨0, 0⟩, ⟨0, 0⟩, false⟩,
   ⟨⟨0, 0⟩, ⟨0, 0⟩, false⟩,
   ⟨⟨0, 0⟩, ⟨0, 0⟩, false⟩,
   ⟨⟨0, 0⟩, ⟨0, 0⟩, false⟩,
   ⟨⟨0, 0⟩, ⟨0, 0⟩, false⟩,
   ⟨⟨0, 0⟩, ⟨0, 0⟩, false⟩,
   ⟨⟨0, 0⟩, ⟨0, 0⟩, false⟩,
   ⟨⟨0, 0⟩, ⟨0, 0⟩, false⟩,
   ⟨⟨0, 0⟩, ⟨0, 0⟩, false⟩,
   ⟨⟨0, 0⟩, ⟨0, 0⟩, false⟩,
   ⟨⟨0, 0⟩, ⟨0, 0⟩, false⟩,
   ⟨⟨0, 0⟩, ⟨0, 0⟩, false⟩,
   ⟨⟨0, 0⟩, ⟨0, 0⟩, false⟩,
   ⟨⟨0, 0⟩, ⟨0, 0⟩, false⟩,
   ⟨⟨0, 0⟩, ⟨0, 0⟩, false⟩,
   ⟨⟨0, 0⟩, ⟨0, 0⟩, false⟩,
   ⟨⟨0, 0⟩, ⟨0, 0⟩, false⟩,
   ⟨⟨0, 0⟩, ⟨0, 0⟩, false⟩],
  10⟩

/-- The continuous-fire world after 40 ticks. -/
def c2chk2 : QWorld :=
  ⟨⟨0, -325/3⟩, ⟨0, -1000/3⟩, .right, false, 1/600,
  [⟨⟨390, 0⟩, ⟨600, 0⟩, true⟩,
   ⟨⟨370, -5/12⟩, ⟨600, 0⟩, true⟩,
   ⟨⟨350, -25/18⟩, ⟨600, 0⟩, true⟩,
   ⟨⟨330, -35/12⟩, ⟨600, 0⟩, true⟩,
   ⟨⟨310, -5⟩, ⟨600, 0⟩, true⟩,
   ⟨⟨290, -275/36⟩, ⟨600, 0⟩, true⟩,
   ⟨⟨270, -65/6⟩, ⟨600, 0⟩, true⟩,
   ⟨⟨250, -175/12⟩, ⟨600, 0⟩, true⟩,
   ⟨⟨230, -170/9⟩, ⟨600, 0⟩, true⟩,
   ⟨⟨210, -95/4⟩, ⟨600, 0⟩, true⟩,
   ⟨⟨190, -175/6⟩, ⟨600, 0⟩, true⟩,
   ⟨⟨170, -1265/36⟩, ⟨600, 0⟩, true⟩,
   ⟨⟨150, -125/3⟩, ⟨600, 0⟩, true⟩,
   ⟨⟨130, -195/4⟩, ⟨600, 0⟩, true⟩,
   ⟨⟨110, -1015/18⟩, ⟨600, 0⟩, true⟩,
   ⟨⟨90, -775/12⟩, ⟨600, 0⟩, true⟩,
   ⟨⟨70, -220/3⟩, ⟨600, 0⟩, true⟩,
   ⟨⟨50, -2975/36⟩, ⟨600, 0⟩, true⟩,
   ⟨⟨30, -185/2⟩, ⟨600, 0⟩, true⟩,
   ⟨⟨10, -1235/12⟩, ⟨600, 0⟩, true⟩,
   ⟨⟨0, 0⟩, ⟨0, 0⟩, false⟩,
   ⟨⟨0, 0⟩, ⟨0, 0⟩, false⟩,
   ⟨⟨0, 0⟩, ⟨0, 0⟩, false⟩,
   ⟨⟨0, 0⟩, ⟨0, 0⟩, false⟩,
   ⟨⟨0, 0⟩, ⟨0, 0⟩, false⟩,
   ⟨⟨0, 0⟩, ⟨0, 0⟩, false⟩,
   ⟨⟨0, 0⟩, ⟨0, 0⟩, false⟩,
   ⟨⟨0, 0⟩, ⟨0, 0⟩, false⟩],
  20⟩

/-- The walk-left world after 20 ticks. -/
def c4chk1 : QWorld :=
  ⟨⟨-100/3, -475/18⟩, ⟨0, -500/3⟩, .left, false, 0,
  [⟨⟨0, 0⟩, ⟨0, 0⟩, false⟩, ⟨⟨0, 0⟩, ⟨0, 0⟩, false⟩, ⟨⟨0, 0⟩, ⟨0, 0⟩, false⟩],
  0⟩

/-- The walk-left world after 40 ticks. -/
def c4chk2 : QWorld :=
  ⟨⟨-200/3, -325/3⟩, ⟨0, -1000/3⟩, .left, false, 0,
  [⟨⟨0, 0⟩, ⟨0, 0⟩, false⟩, ⟨⟨0, 0⟩, ⟨0, 0⟩, false⟩, ⟨⟨0, 0⟩, ⟨0, 0⟩, false⟩],
  0⟩

/-- The walk-left world after 60 ticks. -/
def c4chk3 : QWorld :=
  ⟨⟨-100, -150⟩, ⟨0, -25/3⟩, .left, false, 0,
  [⟨⟨0, 0⟩, ⟨0, 0⟩, false⟩, ⟨⟨0, 0⟩, ⟨0, 0⟩, false⟩, ⟨⟨0, 0⟩, ⟨0, 0⟩, false⟩],
  0⟩

/-- The walk-left world after 80 ticks. -/
def c4chk4 : QWorld :=
  ⟨⟨-400/3, -150⟩, ⟨0, -25/3⟩, .left, false, 0,
  [⟨⟨0, 0⟩, ⟨0, 0⟩, false⟩, ⟨⟨0, 0⟩, ⟨0, 0⟩, false⟩, ⟨⟨0, 0⟩, ⟨0, 0⟩, false⟩],
  0⟩

/-- The walk-left world after 100 ticks. -/
def c4chk5 : QWorld :=
  ⟨⟨-500/3, -150⟩, ⟨0, -25/3⟩, .left, false, 0,
  [⟨⟨0, 0⟩, ⟨0, 0⟩, false⟩, ⟨⟨0, 0⟩, ⟨0, 0⟩, false⟩, ⟨⟨0, 0⟩, ⟨0, 0⟩, false⟩],
  0⟩

/-- The walk-left world after 120 ticks. -/
def c4chk6 : QWorld :=
  ⟨⟨-200, -150⟩, ⟨0, -25/3⟩, .left, false, 0,
  [⟨⟨0, 0⟩, ⟨0, 0⟩, false⟩, ⟨⟨0, 0⟩, ⟨0, 0⟩, false⟩, ⟨⟨0, 0⟩, ⟨0, 0⟩, false⟩],
  0⟩

/-- The walk-left world after 140 ticks. -/
def c4chk7 : QWorld :=
  ⟨⟨-700/3, -150⟩, ⟨0, -25/3⟩, .left, false, 0,
  [⟨⟨0, 0⟩, ⟨0, 0⟩, false⟩, ⟨⟨0, 0⟩, ⟨0, 0⟩, false⟩, ⟨⟨0, 0⟩, ⟨0, 0⟩, false⟩],
  0⟩

/-- The walk-left world after 160 ticks. -/
def c4chk8 : QWorld :=
  ⟨⟨-800/3, -150⟩, ⟨0, -25/3⟩, .left, false, 0,
  [⟨⟨0, 0⟩, ⟨0, 0⟩, false⟩, ⟨⟨0, 0⟩, ⟨0, 0⟩, false⟩, ⟨⟨0, 0⟩, ⟨0, 0⟩, false⟩],
  0⟩

/-- The walk-left world after 180 ticks. -/
def c4chk9 : QWorld :=
  ⟨⟨-300, -150⟩, ⟨0, -25/3⟩, .left, false, 0,
  [⟨⟨0, 0⟩, ⟨0, 0⟩, false⟩, ⟨⟨0, 0⟩, ⟨0, 0⟩, false⟩, ⟨⟨0, 0⟩, ⟨0, 0⟩, false⟩],
  0⟩

/-- The walk-left world after 200 ticks. -/
def c4chk10 : QWorld :=
  ⟨⟨-1000/3, -150⟩, ⟨0, -25/3⟩, .left, false, 0,
  [⟨⟨0, 0⟩, ⟨0, 0⟩, false⟩, ⟨⟨0, 0⟩, ⟨0, 0⟩, false⟩, ⟨⟨0, 0⟩, ⟨0, 0⟩, false⟩],
  0⟩

/-- The walk-left world after 220 ticks. -/
def c4chk11 : QWorld :=
  ⟨⟨-1100/3, -150⟩, ⟨0, -25/3⟩, .left, false, 0,
  [⟨⟨0, 0⟩, ⟨0, 0⟩, false⟩, ⟨⟨0, 0⟩, ⟨0, 0⟩, false⟩, ⟨⟨0, 0⟩, ⟨0, 0⟩, false⟩],
  0⟩

/-- The walk-left world after 240 ticks. -/
def c4chk12 : QWorld :=
  ⟨⟨-400, -150⟩, ⟨0, -25/3⟩, .left, false, 0,
  [⟨⟨0, 0⟩, ⟨0, 0⟩, false⟩, ⟨⟨0, 0⟩, ⟨0, 0⟩, false⟩, ⟨⟨0, 0⟩, ⟨0, 0⟩, false⟩],
  0⟩

/-- The walk-left world after 241 ticks: the player stands at x = -1205/3,
past the -400 bound, cooldown fully drained. -/
def c4pre : QWorld :=
  ⟨⟨-1205/3, -150⟩, ⟨0, 0⟩, .left, false, 0,
  [⟨⟨0, 0⟩, ⟨0, 0⟩, false⟩, ⟨⟨0, 0⟩, ⟨0, 0⟩, false⟩, ⟨⟨0, 0⟩, ⟨0, 0⟩, false⟩],
  0⟩

/-! ## The real-valued layer: hooks, swing pendulum, boss collision -/

noncomputable section
open scoped Classical

/-- A 2D vector over the reals for the geometric code paths. -/
structure RVec where
  x : ℝ
  y : ℝ

/-- The `Dist` trait on `Point2`:
`let dx = self.x - other.x; let dy = self.y - other.y;
(dx * dx + dy * dy).sqrt()`. -/
def distPt (a b : RVec) : ℝ :=
  Real.sqrt ((a.x - b.x) * (a.x - b.x) + (a.y - b.y) * (a.y - b.y))

/-- Rust `f32::atan2`: `y.atan2(x)` is the angle of the vector `(x, y)`,
in `(-pi, pi]` (signed zeros aside, which never matter here). -/
def atan2 (y x : ℝ) : ℝ :=
  if 0 < x then Real.arctan (y / x)
  else if x < 0 then
    (if 0 ≤ y then Real.arctan (y / x) + Real.pi else Real.arctan (y / x) - Real.pi)
  else if 0 < y then Real.pi / 2
  else if y < 0 then -(Real.pi / 2)
  else 0

/-- The ECS `SwingData_` component: initial angle, current angle, pendulum
radius and attach time. -/
structure SwingData_ where
  theta0 : ℝ
  theta : ℝ
  dist : ℝ
  start_time : ℝ

/-- The world as seen by `PlayerControl` and `DoHook`: the player entity,
the hook positions in entity-creation order, the set of hook indices tagged
`IsSwingTarget`, and the player's optional `SwingData_`. -/
structure HWorld where
  ppos : RVec
  pvel : RVec
  facing : Facing
  jumping : Bool
  cooldown : ℝ
  hooks : List RVec
  targets : Finset ℕ
  swing : Option SwingData_

/-- The input snapshot fields read by the real-valued systems. -/
structure RInput where
  xaxis : ℝ
  jump : Bool
  shoot : Bool
  toolJustPressed : Bool

/-- Rust `Iterator::min_by` on the distance-decorated hook list: the fold
keeps the current best unless a strictly smaller distance appears, so the
first minimum wins, as in the source. -/
def minByDistAux (p : RVec) : List RVec → ℕ → ℕ × RVec × ℝ → ℕ × RVec × ℝ
  | [], _, best => best
  | h :: t, i, best =>
    minByDistAux p t (i + 1) (if distPt h p < best.2.2 then (i, h, distPt h p) else best)

/-- The nearest-hook selection of `DoHook::try_hook`: index, position and
distance of the closest hook to `p` (`none` on an empty hook list, where the
source would panic on `unwrap`; the game world always has hooks). -/
def minByDist (p : RVec) : List RVec → Option (ℕ × RVec × ℝ)
  | [] => none
  | h :: t => some (minByDistAux p t 1 (0, h, distPt h p))

/-- `DoHook::try_hook`: tag the nearest hook `IsSwingTarget` unconditionally;
if its distance is under 100, insert a `SwingData_` with
`theta0 = dx.atan2(-dy)`, `theta = theta0`, `dist = sqrt(dx*dx + dy*dy)`
and `start_time = t`, where `dx`/`dy` are player minus hook. -/
def try_hook (w : HWorld) (t : ℝ) : HWorld :=
  match minByDist w.ppos w.hooks with
  | none => w
  | some (i, hp, d) =>
    let w1 := { w with targets := insert i w.targets }
    if d < 100 then
      let dx := w.ppos.x - hp.x
      let dy := w.ppos.y - hp.y
      let theta0 := atan2 dx (-dy)
      let dist := Real.sqrt (dx * dx + dy * dy)
      { w1 with swing := some ⟨theta0, theta0, dist, t⟩ }
    else w1

/-- `DoHook::run`: on a `TOOL` rising edge, remove the player's `SwingData_`
if one exists, otherwise attempt `try_hook`; no edge, no change. -/
def doHook_run (inp : RInput) (w : HWorld) (t : ℝ) : HWorld :=
  if inp.toolJustPressed = true then
    match w.swing with
    | some _ => { w with swing := none }
    | none => try_hook w t
  else w

/-- `PlayerControl::run` on the real-valued world (same code as the rational
model: x movement, ground clamp, jump impulse, cooldown floor, facing). -/
def playerControlR_run (inp : RInput) (dt : ℝ) (w : HWorld) : HWorld :=
  let px := w.ppos.x + inp.xaxis * dt * 100
  let clamped := w.ppos.y < -150
  let py := if clamped then -150 else w.ppos.y
  let vy := if clamped then 0 else w.pvel.y
  let j := if clamped then false else w.jumping
  let vy2 := if inp.jump = true ∧ j = false then 300 else vy
  let j2 := if inp.jump = true ∧ j = false then true else j
  let c1 := if 0 < w.cooldown then w.cooldown - dt else w.cooldown
  let c2 := if c1 < 0 then 0 else c1
  let f := if inp.xaxis < 0 then Facing.left
           else if 0 < inp.xaxis then Facing.right else w.facing
  { w with ppos := ⟨px, py⟩, pvel := ⟨w.pvel.x, vy2⟩, jumping := j2,
           cooldown := c2, facing := f }

/-- The two dispatched systems that touch the jump and swing state, in
dispatcher order: `PlayerControl` then `DoHook`. (`RigidBodyPhysics` runs
before both and `ShootBullets` in between; neither reads or writes
`SwingData_`, and the player's `vel.y` they see is overwritten by the jump
impulse case considered in the theorems below.) -/
def tickControlHook (inp : RInput) (dt : ℝ) (w : HWorld) (t : ℝ) : HWorld :=
  doHook_run inp (playerControlR_run inp dt w) t

/-- A hook anchor (legacy non-ECS code path). -/
structure Hook where
  pos : RVec

/-- The legacy `SwingData` carried by the non-ECS `Actor`, with its target
hook inline. -/
structure SwingData where
  theta0 : ℝ
  theta : ℝ
  dist : ℝ
  start_time : ℝ
  target : Hook

/-- The legacy `Actor` fields read and written by `player_update_swing`. -/
structure Actor where
  pos : RVec
  vel : RVec

/-- `player_update_swing` from the source:
`k = 10.0 * 6.28 / dist`, `theta = theta0 * cos(k * elapsed)`,
`pos = target + (dist * sin theta, -dist * cos theta)`, `vel.y = 0`. -/
def player_update_swing (a : Actor) (sd : SwingData) (t : ℝ) : Actor × SwingData :=
  let theta0 := sd.theta0
  let elapsed := t - sd.start_time
  let dist := sd.dist
  let k := 10 * 6.28 / dist
  let theta := theta0 * Real.cos (k * elapsed)
  (⟨⟨sd.target.pos.x + dist * Real.sin theta,
     sd.target.pos.y - dist * Real.cos theta⟩,
    ⟨a.vel.x, 0⟩⟩,
   { sd with theta := theta })

/-- A bullet of the legacy `Bullets` pool used by `handle_intersection`. -/
structure RBullet where
  pos : RVec
  vel : RVec
  alive : Bool

/-- The boss fields read and written by `handle_intersection`. -/
structure Boss where
  pos : RVec
  vel : RVec
  hp : ℝ

/-- `Disc` from the source. -/
structure Disc where
  pos : RVec
  radius : ℝ

/-- `Disc::intersects`:
`let d = self.pos.distance(&other.pos); d < self.radius || d < other.radius`. -/
def Disc.intersects (a b : Disc) : Prop :=
  distPt a.pos b.pos < a.radius ∨ distPt a.pos b.pos < b.radius

/-- The body of the `handle_intersection` loop for one bullet: on an alive
bullet whose 5-radius disc intersects the boss's 10-radius disc, kill the
bullet, subtract 10 hp and add half the bullet's x velocity to the boss. -/
def handleBullet (boss : Boss) (b : RBullet) : Boss × RBullet :=
  if b.alive = true ∧ (Disc.mk b.pos 5).intersects (Disc.mk boss.pos 10) then
    ({ boss with hp := boss.hp - 10, vel := ⟨boss.vel.x + b.vel.x / 2, boss.vel.y⟩ },
     { b with alive := false })
  else (boss, b)

/-- `handle_intersection`: fold `handleBullet` over the pool, collecting the
updated bullets in order. -/
def handle_intersection (boss : Boss) (bs : List RBullet) : Boss × List RBullet :=
  bs.foldl (fun acc b =>
    let r := handleBullet acc.1 b
    (r.1, acc.2 ++ [r.2])) (boss, ([] : List RBullet))

/-- Scenario: a player 50 units right of a single hook at the origin. -/
def w5 : HWorld := ⟨⟨50, 0⟩, ⟨0, 0⟩, .right, false, 0, [⟨0, 0⟩], ∅, none⟩

/-- Scenario: a player attached to a hook (binding present). -/
def w5b : HWorld := ⟨⟨50, 0⟩, ⟨0, 0⟩, .right, false, 0, [⟨0, 0⟩], {0}, some ⟨1, 1, 50, 0⟩⟩

/-- Input with a `TOOL` rising edge only. -/
def toolInput : RInput := ⟨0, false, false, true⟩

/-- Scenario: a player at the origin with the only hook 200 units away. -/
def w6 : HWorld := ⟨⟨0, 0⟩, ⟨0, 0⟩, .right, false, 0, [⟨200, 0⟩], ∅, none⟩

/-- Scenario: a grounded, non-jumping player attached to a hook. -/
def w7 : HWorld := ⟨⟨0, -150⟩, ⟨0, 0⟩, .right, false, 0, [⟨0, -100⟩], {0}, some ⟨1, 1, 50, 0⟩⟩

/-- Input with `JUMP` held and no `TOOL` edge. -/
def jumpInput : RInput := ⟨0, true, false, false⟩

/-- Scenario for the disc test: an alive bullet 12 units from the boss. -/
def bossC : Boss := ⟨⟨0, 0⟩, ⟨0, 0⟩, 50⟩

/-- The bullet of the disc-test scenario. -/
def bulletC : RBullet := ⟨⟨12, 0⟩, ⟨600, 0⟩, true⟩

/-- Scenario for the swing counterexample: `theta0 = 1`, `dist = 62.8`,
attached at time 0, target at the origin. -/
def sdC : SwingData := ⟨1, 1, 62.8, 0, ⟨⟨0, 0⟩⟩⟩

/-- The actor of the swing counterexample. -/
def actorC : Actor := ⟨⟨0, 0⟩, ⟨0, 0⟩⟩

end

/-! ## Composition of tick runs -/

/-- Splitting a run of `m + n` ticks at tick `m`. -/
theorem runTicks_add (inp : QInput) (m n : ℕ) (w : QWorld) :
    runTicks inp (m + n) w = runTicks inp n (runTicks inp m w) := by
  induction m generalizing w with
  | zero =>
    rw [Nat.zero_add]
    rfl
  | succ k ih =>
    rw [Nat.succ_add]
    show runTicks inp (k + n) (tick inp w) = _
    rw [ih (tick inp w)]
    rfl

/-- Continuous fire, ticks 1 to 20. -/
theorem c2seg1 : runTicks shootInput 20 c2World = c2chk1 := by decide

/-- Continuous fire, ticks 21 to 40. -/
theorem c2seg2 : runTicks shootInput 20 c2chk1 = c2chk2 := by decide

/-- Continuous fire, ticks 41 to 60: ten more spawns despite recycling. -/
theorem c2seg3 : (runTicks shootInput 20 c2chk2).spawnCount = 30 := by decide

/-- The 60-tick run split into three 20-tick segments. -/
theorem c2split : runTicks shootInput 60 c2World
    = runTicks shootInput 20 (runTicks shootInput 20 (runTicks shootInput 20 c2World)) := by
  have h1 : runTicks shootInput 60 c2World
      = runTicks shootInput 40 (runTicks shootInput 20 c2World) :=
    runTicks_add shootInput 20 40 c2World
  have h2 : runTicks shootInput 40 (runTicks shootInput 20 c2World)
      = runTicks shootInput 20 (runTicks shootInput 20 (runTicks shootInput 20 c2World)) :=
    runTicks_add shootInput 20 20 (runTicks shootInput 20 c2World)
  rw [h1, h2]

/-- One 20-tick segment of the walk-left run, stated generically. -/
theorem walkSeg (n : ℕ) (w c : QWorld) (h : runTicks leftInput 20 w = c) :
    runTicks leftInput (20 + n) w = runTicks leftInput n c := by
  rw [runTicks_add, h]

theorem c4seg1 : runTicks leftInput 20 c4World = c4chk1 := by decide

theorem c4seg2 : runTicks leftInput 20 c4chk1 = c4chk2 := by decide

theorem c4seg3 : runTicks leftInput 20 c4chk2 = c4chk3 := by decide

theorem c4seg4 : runTicks leftInput 20 c4chk3 = c4chk4 := by decide

theorem c4seg5 : runTicks leftInput 20 c4chk4 = c4chk5 := by decide

theorem c4seg6 : runTicks leftInput 20 c4chk5 = c4chk6 := by decide

theorem c4seg7 : runTicks leftInput 20 c4chk6 = c4chk7 := by decide

theorem c4seg8 : runTicks leftInput 20 c4chk7 = c4chk8 := by decide

theorem c4seg9 : runTicks leftInput 20 c4chk8 = c4chk9 := by decide

theorem c4seg10 : runTicks leftInput 20 c4chk9 = c4chk10 := by decide

theorem c4seg11 : runTicks leftInput 20 c4chk10 = c4chk11 := by decide

theorem c4seg12 : runTicks leftInput 20 c4chk11 = c4chk12 := by decide

theorem c4seg13 : runTicks leftInput 1 c4chk12 = c4pre := by decide

/-- After 241 ticks of walking left the world is `c4pre`. -/
theorem c4at241 : runTicks leftInput 241 c4World = c4pre := by
  calc runTicks leftInput 241 c4World
      = runTicks leftInput 221 c4chk1 := walkSeg 221 c4World c4chk1 c4seg1
    _ = runTicks leftInput 201 c4chk2 := walkSeg 201 c4chk1 c4chk2 c4seg2
    _ = runTicks leftInput 181 c4chk3 := walkSeg 181 c4chk2 c4chk3 c4seg3
    _ = runTicks leftInput 161 c4chk4 := walkSeg 161 c4chk3 c4chk4 c4seg4
    _ = runTicks leftInput 141 c4chk5 := walkSeg 141 c4chk4 c4chk5 c4seg5
    _ = runTicks leftInput 121 c4chk6 := walkSeg 121 c4chk5 c4chk6 c4seg6
    _ = runTicks leftInput 101 c4chk7 := walkSeg 101 c4chk6 c4chk7 c4seg7
    _ = runTicks leftInput 81 c4chk8 := walkSeg 81 c4chk7 c4chk8 c4seg8
    _ = runTicks leftInput 61 c4chk9 := walkSeg 61 c4chk8 c4chk9 c4seg9
    _ = runTicks leftInput 41 c4chk10 := walkSeg 41 c4chk9 c4chk10 c4seg10
    _ = runTicks leftInput 21 c4chk11 := walkSeg 21 c4chk10 c4chk11 c4seg11
    _ = runTicks leftInput 1 c4chk12 := walkSeg 1 c4chk11 c4chk12 c4seg12
    _ = c4pre := c4seg13

/-- The full walk-then-shoot run reaches `tick leftShootInput c4pre`. -/
theorem c4run_eq : c4Run = tick leftShootInput c4pre := by
  unfold c4Run
  rw [c4at241]

/-! ## Claim theorems on the rational layer -/

/-- C2 (amended): holding Shoot for 1 second of 60 Hz ticks from cooldown 0
with 28 dead slots spawns exactly 30 bullets, not 28: the cooldown is
decremented in both PlayerControl and ShootBullets, so a shot fires every
2nd tick. -/
theorem shoot_one_second_spawns_thirty :
    c2World.cooldown = 0 ∧ c2World.bullets.length = 28 ∧
    (∀ b ∈ c2World.bullets, b.alive = false) ∧
    (runTicks shootInput 60 c2World).spawnCount = 30 := by
  refine ⟨by decide, by decide, by decide, ?_⟩
  rw [c2split, c2seg1, c2seg2]
  exact c2seg3

/-- C2 (counterexample): the same 60-tick run spawns a number of bullets
different from the claimed 28. -/
theorem shoot_one_second_not_twentyeight :
    c2World.cooldown = 0 ∧ c2World.bullets.length = 28 ∧
    (∀ b ∈ c2World.bullets, b.alive = false) ∧
    (runTicks shootInput 60 c2World).spawnCount ≠ 28 := by
  refine ⟨by decide, by decide, by decide, ?_⟩
  rw [c2split, c2seg1, c2seg2, c2seg3]
  decide

/-- C4 (amended): within one ShootBullets pass the despawn sweep runs after
the spawn scan, and a bullet spawned at a player position within the
|x| ≤ 400, |y| ≤ 400 bounds survives the sweep of the same tick. -/
theorem spawn_despawn_order_amended (p v : QVec) (bs bs2 : List QBullet)
    (hx : fabs p.x ≤ 400) (hy : fabs p.y ≤ 400)
    (hs : spawnBullet p v bs = some bs2) :
    ∃ b ∈ bs2.map despawnStep, b.alive = true ∧ b.pos = p ∧ b.vel = v := by
  induction bs generalizing bs2 with
  | nil => simp [spawnBullet] at hs
  | cons b t ih =>
    cases hba : b.alive with
    | true =>
      rw [spawnBullet, hba] at hs
      obtain ⟨t2, ht2, hbs2⟩ := Option.map_eq_some'.mp hs
      obtain ⟨c, hc, hprops⟩ := ih t2 ht2
      exact ⟨c, by rw [← hbs2]; exact List.mem_cons_of_mem _ hc, hprops⟩
    | false =>
      rw [spawnBullet, hba] at hs
      have hbs2 : ({ pos := p, vel := v, alive := true } : QBullet) :: t = bs2 :=
        Option.some.inj hs
      refine ⟨⟨p, v, true⟩, ?_, rfl, rfl, rfl⟩
      rw [← hbs2]
      have hkeep : despawnStep ⟨p, v, true⟩ = ⟨p, v, true⟩ := by
        have hx2 : ¬ 400 < fabs p.x := not_lt.mpr hx
        have hy2 : ¬ 400 < fabs p.y := not_lt.mpr hy
        simp [despawnStep, hx2, hy2]
      simp only [List.map_cons]
      rw [hkeep]
      exact List.mem_cons_self _ _

/-- C4 (amended, witness): a bullet spawned at the origin survives the
despawn sweep of its spawn tick. -/
theorem spawn_despawn_order_amended_witness :
    (fabs (0 : ℚ) ≤ 400 ∧
      spawnBullet ⟨0, 0⟩ ⟨600, 0⟩ [⟨⟨0, 0⟩, ⟨0, 0⟩, false⟩]
        = some [⟨⟨0, 0⟩, ⟨600, 0⟩, true⟩]) ∧
    ∃ b ∈ ([⟨⟨0, 0⟩, ⟨600, 0⟩, true⟩] : List QBullet).map despawnStep,
      b.alive = true ∧ b.pos = (⟨0, 0⟩ : QVec) ∧ b.vel = (⟨600, 0⟩ : QVec) :=
  ⟨⟨by decide, by decide⟩,
    spawn_despawn_order_amended ⟨0, 0⟩ ⟨600, 0⟩ [⟨⟨0, 0⟩, ⟨0, 0⟩, false⟩]
      [⟨⟨0, 0⟩, ⟨600, 0⟩, true⟩] (by decide) (by decide) (by decide)⟩

/-- C4 (counterexample): walking left for 241 ticks takes the player past
x = -400 without any spawn; the next tick with Shoot held spawns a bullet
(count becomes 1) and the same tick's despawn sweep kills it, so every slot
is dead after the tick it was spawned in. -/
theorem spawn_despawn_same_tick_cex :
    400 < fabs (runTicks leftInput 241 c4World).ppos.x ∧
    (runTicks leftInput 241 c4World).spawnCount = 0 ∧
    c4Run.spawnCount = 1 ∧
    (∀ b ∈ c4Run.bullets, b.alive = false) := by
  rw [c4at241, c4run_eq]
  exact ⟨by decide, by decide, by decide, by decide⟩

/-- C8 (confirmed): one Kinematics pass maps `rigidStep` over the entities
carrying Position and Velocity; each entity's position becomes
`position + velocity * dt` using the pre-update velocity, `vel.x` is
untouched, `vel.y` loses exactly `500 * dt` iff the entity has HasGravity,
and no other field changes. -/
theorem rigid_body_pass_spec (dt : ℚ) (es : List QEnt) (e : QEnt) (_hdt : 0 ≤ dt) :
    rigidPass dt es = es.map (rigidStep dt) ∧
    (rigidStep dt e).px = e.px + e.vx * dt ∧
    (rigidStep dt e).py = e.py + e.vy * dt ∧
    (rigidStep dt e).vx = e.vx ∧
    (e.hasGravity = true → (rigidStep dt e).vy = e.vy - 500 * dt) ∧
    (e.hasGravity = false → (rigidStep dt e).vy = e.vy) ∧
    (rigidStep dt e).hasGravity = e.hasGravity := by
  refine ⟨rfl, rfl, rfl, rfl, fun h => ?_, fun h => ?_, rfl⟩
  · simp [rigidStep, h]
  · simp [rigidStep, h]

/-- C8 (witness): the pass at dt = 1/60 on a falling gravity entity. -/
theorem rigid_body_pass_spec_witness :
    (0 : ℚ) ≤ 1 / 60 ∧
    (rigidStep (1 / 60) ⟨0, 0, 600, -25, true⟩).py = 0 + (-25) * (1 / 60) :=
  ⟨by norm_num, (rigid_body_pass_spec (1 / 60) [] ⟨0, 0, 600, -25, true⟩ (by norm_num)).2.2.1⟩

/-- C9 (confirmed): a cooldown starting in [0, 0.035] stays in [0, 0.035]
after the tick's two decrements (PlayerControl then ShootBullets) and the
possible re-arm to 0.035, for any dt ≥ 0; and the decrement from 0.01 by
dt = 0.02 floors at exactly 0. -/
theorem cooldown_invariant (c d : ℚ) (shoot : Bool)
    (h0 : 0 ≤ c) (h1 : c ≤ 35 / 1000) (hd : 0 ≤ d) :
    (0 ≤ sbCooldown (cooldownStep c d) d shoot ∧
      sbCooldown (cooldownStep c d) d shoot ≤ 35 / 1000) ∧
    cooldownStep (1 / 100) (1 / 50) = 0 := by
  have key : ∀ x : ℚ, 0 ≤ x → x ≤ 35 / 1000 →
      0 ≤ cooldownStep x d ∧ cooldownStep x d ≤ 35 / 1000 := by
    intro x hx0 hx1
    simp only [cooldownStep]
    split_ifs <;> constructor <;> linarith
  obtain ⟨a1, a2⟩ := key c h0 h1
  obtain ⟨b1, b2⟩ := key _ a1 a2
  refine ⟨?_, by decide⟩
  simp only [sbCooldown]
  split_ifs with h
  · norm_num
  · exact ⟨b1, b2⟩

/-- C9 (witness): the invariant instantiated at cooldown 0.01, dt = 0.02. -/
theorem cooldown_invariant_witness :
    ((0 : ℚ) ≤ 1 / 100 ∧ (1 : ℚ) / 100 ≤ 35 / 1000 ∧ (0 : ℚ) ≤ 1 / 50) ∧
    0 ≤ sbCooldown (cooldownStep (1 / 100) (1 / 50)) (1 / 50) false :=
  ⟨by norm_num,
    (cooldown_invariant (1 / 100) (1 / 50) false (by norm_num) (by norm_num)
      (by norm_num)).1.1⟩

/-- The spawn scan finds no slot in a fully alive pool. -/
theorem spawnBullet_all_alive (p v : QVec) :
    ∀ bs : List QBullet, (∀ b ∈ bs, b.alive = true) → spawnBullet p v bs = none := by
  intro bs
  induction bs with
  | nil => intro _; rfl
  | cons b t ih =>
    intro h
    have hb : b.alive = true := h b (List.mem_cons_self b t)
    have ht := ih (fun x hx => h x (List.mem_cons_of_mem b hx))
    simp [spawnBullet, hb, ht]

/-- C10 (confirmed): with every slot Alive, the spawn scan returns nothing,
so a ShootBullets pass leaves the pool exactly as the despawn sweep alone
would (the spawn pass changes no slot) and records no spawn. -/
theorem pool_exhaustion_spec (inp : QInput) (d : ℚ) (w : QWorld)
    (h : ∀ b ∈ w.bullets, b.alive = true) :
    spawnBullet w.ppos ⟨600 * w.facing.to_f32, 0⟩ w.bullets = none ∧
    (shootBullets_run inp d w).bullets = w.bullets.map despawnStep ∧
    (shootBullets_run inp d w).spawnCount = w.spawnCount := by
  have hnone := spawnBullet_all_alive w.ppos ⟨600 * w.facing.to_f32, 0⟩ w.bullets h
  have hsp : (if inp.shoot = true ∧ cooldownStep w.cooldown d = 0 then
      spawnBullet w.ppos ⟨600 * w.facing.to_f32, 0⟩ w.bullets else none) = none := by
    split_ifs with hc
    · exact hnone
    · rfl
  refine ⟨hnone, ?_, ?_⟩
  · simp only [shootBullets_run]
    rw [hsp]
    rfl
  · simp only [shootBullets_run]
    rw [hsp]
    rfl

/-- C10 (witness): a one-slot pool whose slot is Alive drops the shot. -/
theorem pool_exhaustion_spec_witness :
    (∀ b ∈ ([⟨⟨0, 0⟩, ⟨0, 0⟩, true⟩] : List QBullet), b.alive = true) ∧
    (shootBullets_run shootInput dt60
      ⟨⟨0, 0⟩, ⟨0, 0⟩, .right, false, 0, [⟨⟨0, 0⟩, ⟨0, 0⟩, true⟩], 0⟩).spawnCount = 0 := by
  refine ⟨by decide, ?_⟩
  have h := (pool_exhaustion_spec shootInput dt60
    ⟨⟨0, 0⟩, ⟨0, 0⟩, .right, false, 0, [⟨⟨0, 0⟩, ⟨0, 0⟩, true⟩], 0⟩ (by decide)).2.2
  simpa using h

/-! ## Helper lemmas on the real layer -/

/-- Closed-form evaluation of `distPt` via a square witness. -/
theorem distPt_eval (a b : RVec) (r : ℝ) (h0 : 0 ≤ r)
    (h : (a.x - b.x) * (a.x - b.x) + (a.y - b.y) * (a.y - b.y) = r * r) :
    distPt a b = r := by
  unfold distPt
  rw [h, Real.sqrt_mul_self h0]

/-- The hook of scenario `w5` is 50 units from the player. -/
theorem dist50 : distPt ⟨0, 0⟩ ⟨50, 0⟩ = 50 :=
  distPt_eval _ _ 50 (by norm_num) (by norm_num)

/-- The hook of scenario `w6` is 200 units from the player. -/
theorem dist200 : distPt ⟨200, 0⟩ ⟨0, 0⟩ = 200 :=
  distPt_eval _ _ 200 (by norm_num) (by norm_num)

/-- On a `TOOL` edge with no binding, `DoHook::run` reduces to `try_hook`. -/
theorem doHook_run_unattached (inp : RInput) (w : HWorld) (t : ℝ)
    (htool : inp.toolJustPressed = true) (hswing : w.swing = none) :
    doHook_run inp w t = try_hook w t := by
  unfold doHook_run
  rw [if_pos htool, hswing]

/-- On a `TOOL` edge with a binding present, `DoHook::run` removes it. -/
theorem doHook_run_attached (inp : RInput) (w : HWorld) (t : ℝ) (sd : SwingData_)
    (htool : inp.toolJustPressed = true) (hswing : w.swing = some sd) :
    doHook_run inp w t = { w with swing := none } := by
  unfold doHook_run
  rw [if_pos htool, hswing]

/-- Without a `TOOL` edge, `DoHook::run` is the identity. -/
theorem doHook_run_noedge (inp : RInput) (w : HWorld) (t : ℝ)
    (htool : inp.toolJustPressed = false) :
    doHook_run inp w t = w := by
  unfold doHook_run
  rw [htool]
  simp

/-- `try_hook` with the nearest hook in range installs the pendulum binding
computed from the player-minus-hook offsets. -/
theorem try_hook_near (w : HWorld) (t : ℝ) (i : ℕ) (hp : RVec) (d : ℝ)
    (hmin : minByDist w.ppos w.hooks = some (i, hp, d)) (hlt : d < 100) :
    try_hook w t =
      { w with targets := insert i w.targets,
               swing := some ⟨atan2 (w.ppos.x - hp.x) (-(w.ppos.y - hp.y)),
                              atan2 (w.ppos.x - hp.x) (-(w.ppos.y - hp.y)),
                              Real.sqrt ((w.ppos.x - hp.x) * (w.ppos.x - hp.x)
                                + (w.ppos.y - hp.y) * (w.ppos.y - hp.y)),
                              t⟩ } := by
  unfold try_hook
  rw [hmin]
  simp only [hlt, if_true, ite_true]

/-- `try_hook` with the nearest hook out of range only tags it. -/
theorem try_hook_far (w : HWorld) (t : ℝ) (i : ℕ) (hp : RVec) (d : ℝ)
    (hmin : minByDist w.ppos w.hooks = some (i, hp, d)) (hfar : ¬ d < 100) :
    try_hook w t = { w with targets := insert i w.targets } := by
  unfold try_hook
  rw [hmin]
  simp only [hfar, if_false, ite_false]

/-- C5 (confirmed): on a TOOL rising edge while unattached, if the nearest
hook selected by the min-by-distance scan is strictly within 100 units, the
installed binding is
`{theta0 = atan2(dx, -dy), theta = theta0, dist = sqrt(dx*dx + dy*dy),
start_time = current GlobalTime}` with `dx`, `dy` the player-minus-hook
offsets; and a TOOL rising edge while a binding exists removes the binding. -/
theorem do_hook_attach_detach :
    (∀ (inp : RInput) (w : HWorld) (t : ℝ) (i : ℕ) (hp : RVec) (d : ℝ),
      inp.toolJustPressed = true → w.swing = none →
      minByDist w.ppos w.hooks = some (i, hp, d) → d < 100 →
      (doHook_run inp w t).swing =
        some ⟨atan2 (w.ppos.x - hp.x) (-(w.ppos.y - hp.y)),
              atan2 (w.ppos.x - hp.x) (-(w.ppos.y - hp.y)),
              Real.sqrt ((w.ppos.x - hp.x) * (w.ppos.x - hp.x)
                + (w.ppos.y - hp.y) * (w.ppos.y - hp.y)),
              t⟩) ∧
    (∀ (inp : RInput) (w : HWorld) (t : ℝ) (sd : SwingData_),
      inp.toolJustPressed = true → w.swing = some sd →
      (doHook_run inp w t).swing = none) := by
  constructor
  · intro inp w t i hp d htool hswing hmin hlt
    rw [doHook_run_unattached inp w t htool hswing, try_hook_near w t i hp d hmin hlt]
  · intro inp w t sd htool hswing
    rw [doHook_run_attached inp w t sd htool hswing]

/-- C5 (witness): a player at (50, 0) with the sole hook at the origin
attaches with `theta0 = atan2 50 0 = pi/2` radius 50; pressing TOOL while
attached detaches. -/
theorem do_hook_attach_detach_witness :
    (distPt ⟨0, 0⟩ ⟨50, 0⟩ < 100 ∧
      (doHook_run toolInput w5 3).swing
        = some ⟨atan2 50 (-(0 : ℝ)), atan2 50 (-(0 : ℝ)), Real.sqrt (50 * 50 + 0 * 0), 3⟩) ∧
    (doHook_run toolInput w5b 3).swing = none := by
  refine ⟨⟨by rw [dist50]; norm_num, ?_⟩, ?_⟩
  · have h := do_hook_attach_detach.1 toolInput w5 3 0 ⟨0, 0⟩ (distPt ⟨0, 0⟩ ⟨50, 0⟩)
      rfl rfl rfl (by rw [dist50]; norm_num)
    simpa [w5] using h
  · exact do_hook_attach_detach.2 toolInput w5b 3 ⟨1, 1, 50, 0⟩ rfl rfl

/-- C6 (amended): on a TOOL rising edge while unattached with the nearest
hook out of range, no binding is created and the player state is untouched,
but the world is not entirely unchanged: the nearest hook is still tagged
IsSwingTarget. -/
theorem try_hook_out_of_range_amended (inp : RInput) (w : HWorld) (t : ℝ)
    (i : ℕ) (hp : RVec) (d : ℝ)
    (htool : inp.toolJustPressed = true) (hswing : w.swing = none)
    (hmin : minByDist w.ppos w.hooks = some (i, hp, d)) (hfar : ¬ d < 100) :
    doHook_run inp w t = { w with targets := insert i w.targets } := by
  rw [doHook_run_unattached inp w t htool hswing, try_hook_far w t i hp d hmin hfar]

/-- C6 (amended, witness): the out-of-range attach attempt at scenario `w6`
leaves everything except the target tag unchanged. -/
theorem try_hook_out_of_range_amended_witness :
    (¬ distPt ⟨200, 0⟩ ⟨0, 0⟩ < 100) ∧
    doHook_run toolInput w6 0 = { w6 with targets := insert 0 w6.targets } :=
  ⟨by rw [dist200]; norm_num,
    try_hook_out_of_range_amended toolInput w6 0 0 ⟨200, 0⟩ (distPt ⟨200, 0⟩ ⟨0, 0⟩)
      rfl rfl rfl (by rw [dist200]; norm_num)⟩

/-- The out-of-range attach attempt at `w6`, computed directly. -/
theorem doHook_w6_eq : doHook_run toolInput w6 0 = { w6 with targets := {0} } := by
  rw [doHook_run_unattached toolInput w6 0 rfl rfl,
      try_hook_far w6 0 0 ⟨200, 0⟩ (distPt ⟨200, 0⟩ ⟨0, 0⟩) rfl (by rw [dist200]; norm_num)]
  simp [w6]

/-- C6 (counterexample): with the only hook 200 > 100 units away, a TOOL
rising edge is not a silent no-op: the resulting world differs from the
original (the hook gained the IsSwingTarget tag). -/
theorem try_hook_out_of_range_cex :
    (∀ hk ∈ w6.hooks, ¬ distPt hk w6.ppos < 100) ∧
    doHook_run toolInput w6 0 ≠ w6 := by
  constructor
  · intro hk hmem
    have hk2 : hk = ⟨200, 0⟩ := by simpa [w6] using hmem
    rw [hk2]
    show ¬ distPt ⟨200, 0⟩ ⟨0, 0⟩ < 100
    rw [dist200]
    norm_num
  · intro heq
    rw [doHook_w6_eq] at heq
    have h := congrArg HWorld.targets heq
    simp [w6] at h

/-- C7 (amended): JUMP held while attached (and not already jumping) applies
the impulse `vel.y = 300` and sets IsJumping, but the swing binding is NOT
cleared: no dispatched system removes SwingData_ on a jump. -/
theorem jump_while_attached_amended (inp : RInput) (dtv t : ℝ) (w : HWorld)
    (sd : SwingData_)
    (hswing : w.swing = some sd) (hjump : inp.jump = true)
    (htool : inp.toolJustPressed = false) (hnj : w.jumping = false) :
    (tickControlHook inp dtv w t).swing = some sd ∧
    (tickControlHook inp dtv w t).pvel.y = 300 ∧
    (tickControlHook inp dtv w t).jumping = true := by
  unfold tickControlHook
  rw [doHook_run_noedge inp _ t htool]
  unfold playerControlR_run
  by_cases hcl : w.ppos.y < -150 <;> simp [hcl, hjump, hnj, hswing]

/-- C7 (amended, witness): the grounded attached player of scenario `w7`. -/
theorem jump_while_attached_amended_witness :
    (w7.swing = some ⟨1, 1, 50, 0⟩ ∧ jumpInput.jump = true ∧
      jumpInput.toolJustPressed = false ∧ w7.jumping = false) ∧
    (tickControlHook jumpInput (1 / 60) w7 0).swing = some ⟨1, 1, 50, 0⟩ :=
  ⟨⟨rfl, rfl, rfl, rfl⟩,
    (jump_while_attached_amended jumpInput (1 / 60) 0 w7 ⟨1, 1, 50, 0⟩
      rfl rfl rfl rfl).1⟩

/-- C7 (counterexample): at scenario `w7` (attached, grounded, JUMP held),
the PlayerControl-and-DoHook tick applies the impulse but leaves the binding
in place, contradicting the claimed forced detach. -/
theorem jump_while_attached_cex :
    w7.swing = some ⟨1, 1, 50, 0⟩ ∧ jumpInput.jump = true ∧
    (tickControlHook jumpInput (1 / 60) w7 0).swing ≠ none ∧
    (tickControlHook jumpInput (1 / 60) w7 0).pvel.y = 300 := by
  have h : tickControlHook jumpInput (1 / 60) w7 0
      = playerControlR_run jumpInput (1 / 60) w7 := by
    unfold tickControlHook
    rw [doHook_run_noedge jumpInput _ 0 rfl]
  refine ⟨rfl, rfl, ?_, ?_⟩
  · rw [h]
    unfold playerControlR_run
    simp [w7]
  · rw [h]
    unfold playerControlR_run
    norm_num [w7, jumpInput]

/-- C1 (amended): the per-tick swing update computes
`theta = theta0 * cos(k * elapsed)` with `k = 10 * 6.28 / dist` (not
`2 * pi / dist`), sets `position = hook + (dist * sin theta, -dist * cos theta)`
and forces `vel.y = 0`; theta returns to theta0 when
`elapsed = 2 * pi * dist / 62.8` (about dist/10 seconds), not at
`elapsed = dist`. -/
theorem swing_update_amended (a : Actor) (sd : SwingData) (t : ℝ)
    (hd : sd.dist ≠ 0) :
    (player_update_swing a sd t).2.theta
      = sd.theta0 * Real.cos (10 * 6.28 / sd.dist * (t - sd.start_time)) ∧
    (player_update_swing a sd t).1.pos.x
      = sd.target.pos.x + sd.dist * Real.sin ((player_update_swing a sd t).2.theta) ∧
    (player_update_swing a sd t).1.pos.y
      = sd.target.pos.y - sd.dist * Real.cos ((player_update_swing a sd t).2.theta) ∧
    (player_update_swing a sd t).1.vel.y = 0 ∧
    (t = sd.start_time + 2 * Real.pi * sd.dist / 62.8 →
      (player_update_swing a sd t).2.theta = sd.theta0) := by
  refine ⟨rfl, rfl, rfl, rfl, fun ht => ?_⟩
  have h628 : (10 : ℝ) * 6.28 = 62.8 := by norm_num
  have harg : 10 * 6.28 / sd.dist * (t - sd.start_time) = 2 * Real.pi := by
    rw [ht, h628]
    field_simp
    ring
  show sd.theta0 * Real.cos (10 * 6.28 / sd.dist * (t - sd.start_time)) = sd.theta0
  rw [harg, Real.cos_two_pi, mul_one]

/-- C1 (amended, witness): the update at radius 1. -/
theorem swing_update_amended_witness :
    ((⟨1, 1, 1, 0, ⟨⟨0, 0⟩⟩⟩ : SwingData).dist ≠ 0) ∧
    (player_update_swing actorC ⟨1, 1, 1, 0, ⟨⟨0, 0⟩⟩⟩ 0).1.vel.y = 0 :=
  ⟨one_ne_zero,
    (swing_update_amended actorC ⟨1, 1, 1, 0, ⟨⟨0, 0⟩⟩⟩ 0 one_ne_zero).2.2.2.1⟩

/-- C1 (counterexample): at `theta0 = 1`, `dist = 62.8`, `start_time = 0`,
time `t = pi`, the code computes `theta = cos(pi) = -1` while the claimed
formula `theta0 * cos((2 pi / dist) * elapsed)` is strictly positive, so the
claimed `k = 2 pi / dist` is not the code's swing rate. -/
theorem swing_update_claim_cex :
    (player_update_swing actorC sdC Real.pi).2.theta
      ≠ sdC.theta0 * Real.cos (2 * Real.pi / sdC.dist * (Real.pi - sdC.start_time)) := by
  have hL : (player_update_swing actorC sdC Real.pi).2.theta = -1 := by
    show sdC.theta0 * Real.cos (10 * 6.28 / sdC.dist * (Real.pi - sdC.start_time)) = -1
    have h1 : (10 : ℝ) * 6.28 / sdC.dist * (Real.pi - sdC.start_time) = Real.pi := by
      show (10 : ℝ) * 6.28 / 62.8 * (Real.pi - 0) = Real.pi
      norm_num
    rw [h1, Real.cos_pi]
    show (1 : ℝ) * -1 = -1
    norm_num
  have harg : 2 * Real.pi / sdC.dist * (Real.pi - sdC.start_time)
      = 2 * Real.pi * Real.pi / 62.8 := by
    show 2 * Real.pi / 62.8 * (Real.pi - 0) = _
    ring
  have hR : 0 < Real.cos (2 * Real.pi / sdC.dist * (Real.pi - sdC.start_time)) := by
    rw [harg]
    apply Real.cos_pos_of_mem_Ioo
    have hp1 : Real.pi < 3.15 := Real.pi_lt_d2
    have hpos : (0 : ℝ) < 2 * Real.pi * Real.pi / 62.8 := by positivity
    have hhalf : (0 : ℝ) < Real.pi / 2 := by positivity
    constructor
    · linarith
    · rw [div_lt_div_iff₀ (by norm_num : (0 : ℝ) < 62.8) (by norm_num : (0 : ℝ) < 2)]
      rw [show (62.8 : ℝ) = 314 / 5 by norm_num, show (3.15 : ℝ) = 63 / 20 by norm_num] at *
      nlinarith [mul_lt_mul_of_pos_right hp1 Real.pi_pos, Real.pi_pos]
  intro h
  rw [hL] at h
  have h2 : sdC.theta0 * Real.cos (2 * Real.pi / sdC.dist * (Real.pi - sdC.start_time))
      = Real.cos (2 * Real.pi / sdC.dist * (Real.pi - sdC.start_time)) := by
    show (1 : ℝ) * _ = _
    ring
  rw [h2] at h
  linarith

/-- C3 (amended): for an alive bullet, the boss takes damage (hp drops by
exactly 10, the bullet dies, and half the bullet's x velocity transfers)
iff the bullet is within 10 units of the boss: `Disc::intersects` compares
the distance against each radius separately (`d < 5 || d < 10`), which is
`d < max(5, 10) = 10`, not the radius sum 15. -/
theorem handle_intersection_amended (boss : Boss) (b : RBullet) :
    ((Disc.mk b.pos 5).intersects (Disc.mk boss.pos 10)
        ↔ distPt b.pos boss.pos < 10) ∧
    (b.alive = true →
      (((handleBullet boss b).1.hp = boss.hp - 10 ∧
        (handleBullet boss b).2.alive = false ∧
        (handleBullet boss b).1.vel.x = boss.vel.x + b.vel.x / 2)
        ↔ distPt b.pos boss.pos < 10)) ∧
    (¬ (b.alive = true ∧ (Disc.mk b.pos 5).intersects (Disc.mk boss.pos 10)) →
      handleBullet boss b = (boss, b)) := by
  have hiff : (Disc.mk b.pos 5).intersects (Disc.mk boss.pos 10)
      ↔ distPt b.pos boss.pos < 10 := by
    show (distPt b.pos boss.pos < 5 ∨ distPt b.pos boss.pos < 10) ↔ _
    constructor
    · rintro (h | h)
      · linarith
      · exact h
    · exact fun h => Or.inr h
  have hmiss : ∀ hn : ¬ (b.alive = true ∧
      (Disc.mk b.pos 5).intersects (Disc.mk boss.pos 10)),
      handleBullet boss b = (boss, b) := by
    intro hn
    unfold handleBullet
    rw [if_neg hn]
  refine ⟨hiff, fun ha => ⟨fun hh => ?_, fun hlt => ?_⟩, hmiss⟩
  · by_contra hfar
    have hmb := hmiss (fun hab => hfar (hiff.mp hab.2))
    rw [hmb] at hh
    have := hh.1
    simp only at this
    linarith
  · have hhit : handleBullet boss b
        = ({ boss with hp := boss.hp - 10,
                       vel := ⟨boss.vel.x + b.vel.x / 2, boss.vel.y⟩ },
           { b with alive := false }) := by
      unfold handleBullet
      rw [if_pos ⟨ha, hiff.mpr hlt⟩]
    rw [hhit]
    exact ⟨rfl, rfl, rfl⟩

/-- C3 (amended, witness): a bullet 1 unit from the boss hits. -/
theorem handle_intersection_amended_witness :
    distPt ⟨1, 0⟩ ⟨0, 0⟩ < 10 ∧
    (handleBullet ⟨⟨0, 0⟩, ⟨0, 0⟩, 50⟩ ⟨⟨1, 0⟩, ⟨600, 0⟩, true⟩).1.hp = 50 - 10 := by
  have hd : distPt ⟨1, 0⟩ ⟨0, 0⟩ = 1 := distPt_eval _ _ 1 (by norm_num) (by norm_num)
  have hlt : distPt ⟨1, 0⟩ ⟨0, 0⟩ < 10 := by rw [hd]; norm_num
  exact ⟨hlt,
    ((handle_intersection_amended ⟨⟨0, 0⟩, ⟨0, 0⟩, 50⟩ ⟨⟨1, 0⟩, ⟨600, 0⟩, true⟩).2.1
      rfl).mpr hlt |>.1⟩

/-- C3 (counterexample): an alive bullet 12 units from the boss is within
the claimed radius-sum threshold 15 yet `handle_intersection` deals no
damage and leaves the bullet alive: the code tests `d < 10`, not `d < 15`. -/
theorem handle_intersection_claim_cex :
    distPt bulletC.pos bossC.pos < 5 + 10 ∧
    bulletC.alive = true ∧
    (handle_intersection bossC [bulletC]).1.hp = bossC.hp ∧
    (handle_intersection bossC [bulletC]).2 = [bulletC] := by
  have hd : distPt bulletC.pos bossC.pos = 12 :=
    distPt_eval _ _ 12 (by norm_num [bulletC, bossC]) (by norm_num [bulletC, bossC])
  have hI : ¬ (Disc.mk bulletC.pos 5).intersects (Disc.mk bossC.pos 10) := by
    show ¬ (distPt bulletC.pos bossC.pos < 5 ∨ distPt bulletC.pos bossC.pos < 10)
    rw [hd]
    norm_num
  have hstep : handleBullet bossC bulletC = (bossC, bulletC) := by
    unfold handleBullet
    rw [if_neg (fun hab => hI hab.2)]
  have hrun : handle_intersection bossC [bulletC] = (bossC, [bulletC]) := by
    unfold handle_intersection
    simp [hstep]
  refine ⟨by rw [hd]; norm_num, rfl, by rw [hrun], by rw [hrun]⟩
